import Mathlib

/-!
Verification of the altitrace Simulation & Trace Orchestration layer.

Shallow embedding of the Rust sources under `packages/api/src`:
* `error/alloy_conversions.rs` (transport-error classification and sanitization),
* `error/rpc.rs` (RpcError, its display strings and machine codes),
* `services/hyperevm/service.rs` (block-context resolution, simulate, batch),
* `handlers/trace/dto.rs` + `handlers/trace/strategy.rs` (tracer set, strategy),
* `handlers/trace/conversion.rs` (TraceConfig to geth tracing options),
* `handlers/trace/response/*.rs` (trace-payload normalization).

Machine integers are modelled as `Nat` (with explicit `% 2 ^ 64` where the code
relies on `u64` wrapping); Rust `Result`/`Option` become `Except`/`Option`;
strings are Lean `String` manipulated through their character lists.  Remote
calls and other effects are passed in as explicit function arguments, so every
operation is a pure function of its inputs and the injected outcomes.
-/

namespace Altitrace

/-! ## Character and string helpers -/

/-- ASCII whitespace, the approximation of the regex class backslash-s used by
the sanitizer patterns (upstream texts handled here are ASCII). -/
def isWs (c : Char) : Bool :=
  c = ' ' || c = '\t' || c = '\n' || c = '\r'

/-- Regex word character (the class backslash-w): letters, digits, underscore. -/
def isWordChar (c : Char) : Bool :=
  c.isAlpha || c.isDigit || c = '_'

/-- Length of the maximal run of leading ASCII digits. -/
def digitRun : List Char → Nat
  | [] => 0
  | c :: rest => if c.isDigit then digitRun rest + 1 else 0

/-- `needle` occurs at the front of `hay`. -/
def charsLead : List Char → List Char → Bool
  | [], _ => true
  | _ :: _, [] => false
  | n :: ns, h :: hs => n == h && charsLead ns hs

/-- `needle` occurs somewhere inside `hay` (models Rust `str::contains`). -/
def charsContain (needle : List Char) : List Char → Bool
  | [] => charsLead needle []
  | c :: rest => charsLead needle (c :: rest) || charsContain needle rest

/-- Rust `haystack.contains(needle)`. -/
def strContains (hay needle : String) : Bool :=
  charsContain needle.data hay.data

/-- One lowercase hexadecimal digit. -/
def hexDigit (n : Nat) : Char :=
  if n < 10 then Char.ofNat (48 + n) else Char.ofNat (87 + n)

/-- Hex digits of `n`, most significant first; empty for 0 (fueled). -/
def hexDigitsAux : Nat → Nat → List Char
  | 0, _ => []
  | _ + 1, 0 => []
  | fuel + 1, n => hexDigitsAux fuel (n / 16) ++ [hexDigit (n % 16)]

/-- Rust `format!("{:x}", n)`: lowercase hex, no prefix, `"0"` for zero. -/
def hexString (n : Nat) : String :=
  if n = 0 then "0" else String.mk (hexDigitsAux n n)

/-- Lowercase hex of `n` left-padded with zeros to `width` digits (the debug
format of fixed-width values such as `Address` and `B256`). -/
def padHex (width n : Nat) : String :=
  let ds := if n = 0 then ['0'] else hexDigitsAux n n
  String.mk (List.replicate (width - ds.length) '0' ++ ds)

/-- Hex encoding of a byte list, two digits per byte (Rust `hex::encode`). -/
def bytesHex (bs : List Nat) : String :=
  String.mk (bs.foldr (fun b acc => hexDigit (b % 256 / 16) :: hexDigit (b % 16) :: acc) [])

/-- Numeric value of one hex digit, if any (upper or lower case). -/
def hexDigitVal (c : Char) : Option Nat :=
  if '0' ≤ c ∧ c ≤ '9' then some (c.toNat - 48)
  else if 'a' ≤ c ∧ c ≤ 'f' then some (c.toNat - 87)
  else if 'A' ≤ c ∧ c ≤ 'F' then some (c.toNat - 55)
  else none

/-- Accumulate hex digits; fails on the first non-digit. -/
def parseHexDigits : List Char → Nat → Option Nat
  | [], acc => some acc
  | c :: rest, acc =>
    match hexDigitVal c with
    | some v => parseHexDigits rest (acc * 16 + v)
    | none => none

/-! ## The sanitizer (`error/alloy_conversions.rs::sanitize_error_message`)

The two patterns are `https?://[^\s/$.?#].[^\s]*` and
`\b(?:[0-9]{1,3}\.){3}[0-9]{1,3}(?::[0-9]+)?\b`, applied with `replace_all`
(leftmost match, greedy quantifiers, continue after each match).  For these
two patterns the backtracking search is deterministic, which the matchers
below implement directly:
* each URL match is the literal scheme, one character outside
  whitespace/`/$.?#`, one character other than a newline, then the maximal
  run of non-whitespace;
* each octet-and-dot group succeeds exactly when the maximal leading digit
  run has length 1..3 and is followed by a dot, and the optional port is
  taken exactly when a colon and digits follow and the position after the
  digits is a word boundary (when that boundary fails the engine falls back
  to the portless match, whose boundary at the colon always holds). -/

/-- Maximal run of non-whitespace characters (the greedy `[^\s]*`). -/
def nonWsRun : List Char → Nat
  | [] => 0
  | c :: rest => if isWs c then 0 else nonWsRun rest + 1

/-- Match the URL pattern after the scheme: `://`, one character outside the
excluded set, any character except newline, then greedy non-whitespace.
Returns the number of characters consumed. -/
def matchUrlTail : List Char → Option Nat
  | ':' :: '/' :: '/' :: c1 :: c2 :: rest =>
    if isWs c1 || c1 = '/' || c1 = '$' || c1 = '.' || c1 = '?' || c1 = '#' then none
    else if c2 = '\n' then none
    else some (5 + nonWsRun rest)
  | _ => none

/-- Match the full URL pattern at the head of the list, returning the length
of the match.  The optional `s` is greedy, with backtracking. -/
def matchUrl : List Char → Option Nat
  | 'h' :: 't' :: 't' :: 'p' :: rest =>
    match rest with
    | 's' :: rest2 =>
      match matchUrlTail rest2 with
      | some n => some (5 + n)
      | none => (matchUrlTail rest).map (4 + ·)
    | _ => (matchUrlTail rest).map (4 + ·)
  | _ => none

/-- `replace_all` scan for the URL pattern.  The fuel is an upper bound on the
scan positions; it is instantiated with the list length. -/
def scanReplaceUrlAux (repl : List Char) : Nat → List Char → List Char
  | 0, l => l
  | _ + 1, [] => []
  | fuel + 1, c :: rest =>
    match matchUrl (c :: rest) with
    | some len => repl ++ scanReplaceUrlAux repl fuel (List.drop len (c :: rest))
    | none => c :: scanReplaceUrlAux repl fuel rest

/-- Boundary after a match: end of input or a non-word character. -/
def boundaryAfter : List Char → Bool
  | [] => true
  | c :: _ => !isWordChar c

/-- One `[0-9]{1,3}` octet followed by a literal dot.  Deterministic: the
maximal digit run must have length 1..3 and the next character must be the
dot (shorter greedy choices are always followed by a digit and fail). -/
def matchOctetDot (l : List Char) : Option (Nat × List Char) :=
  let d := digitRun l
  if 1 ≤ d ∧ d ≤ 3 then
    match List.drop d l with
    | '.' :: rest => some (d + 1, rest)
    | _ => none
  else none

/-- Match the IPv4 pattern (three octet-dot groups, a final octet, an optional
`:port`, and a trailing word boundary) at the head of the list.  The leading
word boundary is checked by the scanner. -/
def matchIp (l : List Char) : Option Nat :=
  match matchOctetDot l with
  | none => none
  | some (n1, r1) =>
    match matchOctetDot r1 with
    | none => none
    | some (n2, r2) =>
      match matchOctetDot r2 with
      | none => none
      | some (n3, r3) =>
        let d := digitRun r3
        if 1 ≤ d ∧ d ≤ 3 then
          let base := n1 + n2 + n3 + d
          match List.drop d r3 with
          | ':' :: r5 =>
            let p := digitRun r5
            if 1 ≤ p ∧ boundaryAfter (List.drop p r5) then some (base + 1 + p)
            else some base
          | r4 => if boundaryAfter r4 then some base else none
        else none

/-- `replace_all` scan for the IPv4 pattern, tracking whether the previous
character of the original text is a word character (for the leading word
boundary).  After a replacement the previous character is the final digit of
the match, a word character. -/
def scanReplaceIpAux (repl : List Char) : Nat → Bool → List Char → List Char
  | 0, _, l => l
  | _ + 1, _, [] => []
  | fuel + 1, prevWord, c :: rest =>
    if prevWord then c :: scanReplaceIpAux repl fuel (isWordChar c) rest
    else
      match matchIp (c :: rest) with
      | some len => repl ++ scanReplaceIpAux repl fuel true (List.drop len (c :: rest))
      | none => c :: scanReplaceIpAux repl fuel (isWordChar c) rest

/-- `URL_REGEX.replace_all(s, "[RPC_ENDPOINT]")`. -/
def replaceUrls (s : String) : String :=
  String.mk (scanReplaceUrlAux "[RPC_ENDPOINT]".data s.data.length s.data)

/-- `IP_REGEX.replace_all(s, "[RPC_HOST]")`. -/
def replaceIps (s : String) : String :=
  String.mk (scanReplaceIpAux "[RPC_HOST]".data s.data.length false s.data)

/-- `sanitize_error_message` from `error/alloy_conversions.rs`: strip URLs,
then IPv4 literals, then map well-known connectivity phrasings to canned
messages. -/
def sanitize_error_message (message : String) : String :=
  let sanitized := replaceUrls message
  let sanitized := replaceIps sanitized
  if strContains sanitized "error sending request" then
    "RPC request timeout, check if RPC is running and accepting connections"
  else if strContains sanitized "connection refused" || strContains sanitized "Connection refused" then
    "RPC connection refused, check if RPC is running and accepting connections"
  else if strContains sanitized "No route to host" || strContains sanitized "Host unreachable" then
    "RPC host unreachable, check network connectivity and RPC configuration"
  else if strContains sanitized "timeout" || strContains sanitized "timed out" then
    "RPC request timeout, check if RPC is running and accepting connections"
  else sanitized

/-! ## Error taxonomy (`error/rpc.rs`, `error/service.rs`) -/

/-- `RpcError` from `error/rpc.rs`.  `data` payloads are carried as strings
(their JSON rendering); numeric codes are `Int`. -/
inductive RpcError where
  | connectionFailed (details : String) (endpoint : Option String)
  | timeout (method : String) (duration_ms : Nat)
  | methodNotFound (method : String)
  | invalidParams (method : String) (details : String)
  | internalError (code : Int) (message : String) (data : Option String)
  | parseError (details : String)
  | nodeSyncing (current : Nat) (highest : Nat)
  | blockNotFound
  | transactionNotFound
  | executionReverted (reason : String) (data : Option String)
  | rateLimited
  | transport (msg : String)
deriving Repr, DecidableEq

/-- The `thiserror` display string of each `RpcError` variant
(`rpc_error.to_string()`). -/
def RpcError.toMessage : RpcError → String
  | .connectionFailed details _ => "RPC connection failed: " ++ details
  | .timeout _ _ => "RPC request timeout"
  | .methodNotFound method => "RPC method not found: " ++ method
  | .invalidParams method details => "Invalid RPC parameters for " ++ method ++ ": " ++ details
  | .internalError _ message _ => "RPC internal error: " ++ message
  | .parseError details => "RPC response parse error: " ++ details
  | .nodeSyncing current highest =>
    "Node syncing: current block " ++ toString current ++ ", highest block " ++ toString highest
  | .blockNotFound => "Block not found"
  | .transactionNotFound => "Transaction not found"
  | .executionReverted reason _ => "Execution reverted: " ++ reason
  | .rateLimited => "Rate limited by node"
  | .transport msg => "Transport error: " ++ msg

/-- `RpcError::error_code`. -/
def RpcError.error_code : RpcError → String
  | .connectionFailed _ _ => "RPC_CONNECTION_FAILED"
  | .timeout _ _ => "RPC_TIMEOUT"
  | .methodNotFound _ => "RPC_METHOD_NOT_FOUND"
  | .invalidParams _ _ => "RPC_INVALID_PARAMS"
  | .internalError _ _ _ => "RPC_INTERNAL_ERROR"
  | .parseError _ => "RPC_PARSE_ERROR"
  | .nodeSyncing _ _ => "NODE_SYNCING"
  | .blockNotFound => "BLOCK_NOT_FOUND"
  | .transactionNotFound => "TRANSACTION_NOT_FOUND"
  | .executionReverted _ _ => "EXECUTION_REVERTED"
  | .rateLimited => "RPC_RATE_LIMITED"
  | .transport _ => "RPC_TRANSPORT_ERROR"

/-- `code.to_lowercase().replace(underscore, dash)`, as applied to
`error_code()` in `simulate_transaction`. -/
def errorTypeOf (code : String) : String :=
  String.mk (code.data.map fun c => if c = '_' then '-' else c.toLower)

/-- The alloy `TransportErrorKind` cases distinguished by
`alloy_conversions.rs`.  String fields carry the displayed text of the
wrapped values; `otherKind` is the catch-all arm. -/
inductive TransportErrorKind where
  | missingBatchResponse (idDebug : String)
  | backendGone
  | pubsubUnavailable
  | httpError (status : Nat) (body : String)
  | custom (msg : String)
  | otherKind
deriving Repr

/-- The alloy `RpcError<TransportErrorKind>` (aliased `TransportError`) cases
distinguished by `alloy_conversions.rs`; `otherError` is the catch-all arm. -/
inductive TransportError where
  | transport (kind : TransportErrorKind)
  | serError (msg : String)
  | deserError (err : String) (text : String)
  | errorResp (payload : String)
  | nullResp
  | unsupportedFeature (feature : String)
  | otherError
deriving Repr

/-- `impl From<TransportError> for RpcError` from `error/alloy_conversions.rs`.
Only the `HttpError` body (for statuses 0 and 400..499) and `Custom` paths run
`sanitize_error_message`; all other embedded texts are formatted verbatim. -/
def RpcError.ofTransport : TransportError → RpcError
  | .transport kind =>
    match kind with
    | .missingBatchResponse idDebug =>
      .internalError (-32603) ("Missing batch response for request ID: " ++ idDebug) none
    | .backendGone => .connectionFailed "Backend connection has been lost" none
    | .pubsubUnavailable => .methodNotFound "Pubsub subscriptions are not available"
    | .httpError status body =>
      if status == 429 then .rateLimited
      else if status ≥ 500 then
        .internalError (Int.ofNat status) ("HTTP error " ++ toString status ++ ": server error") none
      else if status == 0 || (status ≥ 400 && status < 500) then
        let sanitized_body := sanitize_error_message body
        if strContains sanitized_body "timeout" || strContains sanitized_body "connection" then
          .timeout "http_request" 0
        else
          .invalidParams "http_request" ("HTTP " ++ toString status ++ ": " ++ sanitized_body)
      else .invalidParams "http_request" ("HTTP " ++ toString status ++ ": request error")
    | .custom msg => .internalError (-32603) (sanitize_error_message msg) none
    | .otherKind => .internalError (-32603) "Unknown transport error" none
  | .serError msg => .parseError ("Serialization error: " ++ msg)
  | .deserError err text => .parseError ("Deserialization error: " ++ err ++ " - text: " ++ text)
  | .errorResp payload =>
    if strContains payload "execution reverted" || strContains payload "revert" then
      .executionReverted "Transaction execution reverted" (some payload)
    else .internalError (-32603) ("RPC error: " ++ payload) none
  | .nullResp => .parseError "Received null response from RPC"
  | .unsupportedFeature feature => .methodNotFound ("Unsupported feature: " ++ feature)
  | .otherError => .internalError (-32603) "Unknown RPC error" none

/-- `ServiceError` from `error/service.rs`.  The boxed `source` payloads and
the `ExecutionError` payload are carried as display strings. -/
inductive ServiceError where
  | simulationFailed (reason : String)
  | traceFailed (reason : String)
  | executionFailed (error : String)
  | invalidBlockContext (reason : String)
  | invalidStateOverride (reason : String)
  | accessListFailed (reason : String)
  | bundleValidationFailed (reason : String)
  | gasEstimationFailed (reason : String)
  | nodeCommunication (rpc : RpcError)
  | resourceExhausted (resource : String)
  | operationTimeout (operation : String) (duration_ms : Nat)
deriving Repr

/-! ## Block context resolution (`services/hyperevm/service.rs`) -/

/-- `BlockTag` from `handlers/simulation/dto.rs`. -/
inductive BlockTag where
  | latest
  | earliest
  | safe
  | finalized
deriving Repr, DecidableEq

/-- `BlockContext` from `services/hyperevm/service.rs`; its `Default` is
`Tag(Latest)`. -/
inductive BlockContext where
  | number (n : Nat)
  | tag (t : BlockTag)
deriving Repr, DecidableEq

/-- `HyperEvmService::determine_block_context`, as a function of the two
values the `BlockContextProvider` yields for the request:
`params.block_number()` (already parsed to `u64`) and `params.block_tag()`. -/
def determine_block_context (block_number : Option Nat) (block_tag : Option BlockTag) :
    Except ServiceError BlockContext :=
  match block_number, block_tag with
  | some n, none => .ok (BlockContext.number n)
  | none, some t => .ok (BlockContext.tag t)
  | none, none => .ok (BlockContext.tag BlockTag.latest)
  | some _, some _ =>
    .error (ServiceError.invalidBlockContext "Cannot specify both block_number and block_tag")

/-! ## Simulation data model (`handlers/simulation/response.rs`) -/

/-- `CallStatus`. -/
inductive CallStatus where
  | success
  | reverted
deriving Repr, DecidableEq

/-- `SimulationStatus`. -/
inductive SimulationStatus where
  | success
  | reverted
  | failed
deriving Repr, DecidableEq

/-- `CallError`. -/
structure CallError where
  reason : String
  error_type : String
  message : Option String
  contract_address : Option String
deriving Repr, DecidableEq

/-- `EnhancedLog` (decoded-event enrichment left unpopulated by this layer). -/
structure EnhancedLog where
  address : String
  block_hash : Option String
  block_number : Option String
  data : String
  log_index : Option String
  transaction_hash : Option String
  transaction_index : Option String
  topics : List String
  removed : Bool
  decoded : Option Unit
deriving Repr, DecidableEq

/-- `CallResult`. -/
structure CallResult where
  call_index : Nat
  status : CallStatus
  return_data : String
  gas_used : String
  logs : List EnhancedLog
  error : Option CallError
deriving Repr, DecidableEq

/-- `SimulationResult` (the unused `asset_changes` payload is a unit option). -/
structure SimulationResult where
  simulation_id : String
  block_number : String
  status : SimulationStatus
  calls : List CallResult
  gas_used : String
  block_gas_used : String
  asset_changes : Option Unit
deriving Repr, DecidableEq

/-! ## Simulation orchestration (`services/hyperevm/service.rs` lines 135-399
and `handlers/simulation/conversion.rs`)

The remote `eth_simulateV1` call and the per-item UUIDs are injected as
arguments; everything from the point the RPC future resolves is embedded
verbatim.  String indexing follows Rust byte positions under the ASCII
inputs this layer handles. -/

/-- Index of the first occurrence of `needle` (Rust `str::find`). -/
def charsFindFrom (needle : List Char) : List Char → Option Nat
  | [] => if charsLead needle [] then some 0 else none
  | c :: rest =>
    if charsLead needle (c :: rest) then some 0 else (charsFindFrom needle rest).map (· + 1)

/-- `extract_revert_reason` from `handlers/simulation/conversion.rs`. -/
def extract_revert_reason (message : String) : String :=
  match charsFindFrom "execution reverted: ".data message.data with
  | some start => String.mk (message.data.drop (start + 20))
  | none =>
    match charsFindFrom "revert ".data message.data with
    | some start => String.mk (message.data.drop (start + 7))
    | none =>
      if strContains message "out of gas" then "Out of gas"
      else if strContains message "insufficient funds" then "Insufficient funds"
      else message

/-- An error attached to one simulated call (`SimCallResult.error`). -/
structure SimCallError where
  code : Int
  message : String
deriving Repr

/-- A log produced by one simulated call: the address and topics are the
fixed-width alloy values (modelled as numbers), the data a byte list. -/
structure SimLog where
  address : Nat
  data : List Nat
  log_index : Option Nat
  topics : List Nat
deriving Repr

/-- Alloy `SimCallResult`: outcome of one call inside a simulated block. -/
structure SimCallResult where
  status : Bool
  return_data : List Nat
  gas_used : Nat
  logs : List SimLog
  error : Option SimCallError
deriving Repr

/-- The header fields of a simulated block that the service reads. -/
structure SimulatedBlockHeader where
  number : Nat
  gas_used : Nat
deriving Repr

/-- Alloy `SimulatedBlock` (header plus per-call results). -/
structure SimulatedBlock where
  header : SimulatedBlockHeader
  calls : List SimCallResult
deriving Repr

/-- `impl From<(usize, SimCallResult)> for CallResult` from
`handlers/simulation/conversion.rs`. -/
def CallResult.fromSim (index : Nat) (alloy_result : SimCallResult) : CallResult :=
  let status := if alloy_result.status then CallStatus.success else CallStatus.reverted
  let return_data := "0x" ++ bytesHex alloy_result.return_data
  let gas_used := "0x" ++ hexString alloy_result.gas_used
  let logs := alloy_result.logs.map fun log =>
    { address := "0x" ++ padHex 40 log.address
      block_hash := none
      block_number := none
      data := "0x" ++ bytesHex log.data
      log_index := some ("0x" ++ hexString (log.log_index.getD 0))
      transaction_hash := none
      transaction_index := none
      topics := log.topics.map fun topic => "0x" ++ padHex 64 topic
      removed := false
      decoded := none }
  let error := alloy_result.error.map fun sim_error =>
    { reason := extract_revert_reason sim_error.message
      error_type :=
        if sim_error.code == -3200 then "execution-reverted"
        else if sim_error.code == -32015 then "vm-execution-error"
        else "unknown-error"
      message := some sim_error.message
      contract_address := none }
  { call_index := index, status, return_data, gas_used, logs, error }

/-- Rust `str::trim_start_matches("0x")`: strips every leading `0x`. -/
def trimStart0x : List Char → List Char
  | '0' :: 'x' :: rest => trimStart0x rest
  | l => l

/-- `u64::from_str_radix(s, 16)`: optional leading plus sign, then a
non-empty run of hex digits whose value fits in 64 bits. -/
def from_str_radix16_u64 (s : List Char) : Option Nat :=
  let digits :=
    match s with
    | '+' :: rest => rest
    | _ => s
  match digits with
  | [] => none
  | _ =>
    match parseHexDigits digits 0 with
    | some v => if v < 2 ^ 64 then some v else none
    | none => none

/-- The per-call gas parse of `simulate_transaction`:
`u64::from_str_radix(gas_used.trim_start_matches("0x"), 16).unwrap_or(0)`. -/
def parseGasU64 (s : String) : Nat :=
  (from_str_radix16_u64 (trimStart0x s.data)).getD 0

/-- The `sanitized_reason` selection of `simulate_transaction` (lines
204-213): canned texts for timeouts and connection failures, the revert
reason for reverts, the display string otherwise. -/
def sanitizedReasonFor (rpc_error : RpcError) : String :=
  match rpc_error with
  | .timeout _ _ =>
    "RPC request timeout, check if RPC is running and accepting connections"
  | .connectionFailed _ _ =>
    "RPC connection failed, check if RPC is running and accepting connections"
  | .executionReverted reason _ => reason
  | _ => rpc_error.toMessage

/-- `HyperEvmService::simulate_transaction` from the point the
`eth_simulateV1` future resolves (lines 191-305): the RPC outcome is the
`rpc_result` argument, `simulation_id` the UUID drawn at entry, `call_count`
the request's `call_count()`.  The `u64` sum of per-call gas wraps, hence the
`% 2 ^ 64`. -/
def simulate_transaction_core (simulation_id : String) (call_count : Nat)
    (rpc_result : Except TransportError (List SimulatedBlock)) :
    Except ServiceError SimulationResult :=
  match rpc_result with
  | .error e =>
    let rpc_error := RpcError.ofTransport e
    let sanitized_reason := sanitizedReasonFor rpc_error
    let call_error : CallError :=
      { reason := sanitized_reason
        error_type := errorTypeOf rpc_error.error_code
        message := some sanitized_reason
        contract_address := none }
    let call_results := (List.range call_count).map fun index =>
      { call_index := index, status := CallStatus.reverted, return_data := "0x"
        gas_used := "0x0", logs := [], error := some call_error : CallResult }
    .ok { simulation_id
          status := SimulationStatus.failed
          block_number := "0x0"
          calls := call_results
          gas_used := "0x0"
          block_gas_used := "0x0"
          asset_changes := none }
  | .ok simulated_blocks =>
    match simulated_blocks with
    | [] => .error (ServiceError.simulationFailed "No simulation results returned")
    | simulated_block :: _ =>
      let call_results := simulated_block.calls.enum.map fun p => CallResult.fromSim p.1 p.2
      let status :=
        if call_results.all fun r => r.status == CallStatus.success then
          SimulationStatus.success
        else SimulationStatus.failed
      let total_gas_used :=
        call_results.foldl (fun acc r => (acc + parseGasU64 r.gas_used) % 2 ^ 64) 0
      .ok { simulation_id
            status
            block_number := "0x" ++ hexString simulated_block.header.number
            gas_used := "0x" ++ hexString total_gas_used
            calls := call_results
            block_gas_used := "0x" ++ hexString simulated_block.header.gas_used
            asset_changes := none }

/-- The request data `simulate_batch` itself inspects (the calls are only
counted, never read, by the batch wrapper). -/
structure SimulationRequestModel where
  call_count : Nat
deriving Repr

/-- The per-item closure of `simulate_batch` (lines 335-378): on success the
item keeps its result with the batch-unique id substituted; on an unexpected
error a one-call failed placeholder is synthesized. -/
def batch_item (simulation_id : String)
    (outcome : Except ServiceError SimulationResult) : SimulationResult :=
  match outcome with
  | .ok result => { result with simulation_id }
  | .error _ =>
    let sanitized_reason := "Simulation service error occurred"
    { simulation_id
      status := SimulationStatus.failed
      block_number := "0x0"
      calls := [{ call_index := 0
                  status := CallStatus.reverted
                  return_data := "0x"
                  gas_used := "0x0"
                  logs := []
                  error := some { reason := sanitized_reason
                                  error_type := "simulation-error"
                                  message := some sanitized_reason
                                  contract_address := none } }]
      gas_used := "0x0"
      block_gas_used := "0x0"
      asset_changes := none }

/-- `HyperEvmService::simulate_batch` (lines 309-399).  One future per request
is created in input order and `join_all` yields their values in that same
order; `run` injects what `simulate_transaction` returns for each request and
`ids` the fresh UUID drawn for each batch position. -/
def simulate_batch (requests : List SimulationRequestModel) (ids : Nat → String)
    (run : SimulationRequestModel → Except ServiceError SimulationResult) :
    Except ServiceError (List SimulationResult) :=
  if requests.isEmpty then
    .error (ServiceError.simulationFailed "Batch simulation requires at least one request")
  else .ok (requests.enum.map fun p => batch_item (ids p.1) (run p.2))

/-! ## Tracer configuration (`handlers/trace/dto.rs`) -/

/-- `CallTracerConfig`. -/
structure CallTracerConfig where
  only_top_call : Bool
  with_logs : Bool
deriving Repr, DecidableEq

/-- `PrestateTracerConfig`. -/
structure PrestateTracerConfig where
  diff_mode : Bool
  disable_code : Bool
  disable_storage : Bool
deriving Repr, DecidableEq

/-- `StructLoggerConfig`. -/
structure StructLoggerConfig where
  disable_memory : Bool
  disable_stack : Bool
  disable_storage : Bool
  disable_return_data : Bool
  clean_struct_logs : Bool
deriving Repr, DecidableEq

/-- `Tracers`: the requested tracer set. -/
structure Tracers where
  four_byte_tracer : Bool
  call_tracer : Option CallTracerConfig
  prestate_tracer : Option PrestateTracerConfig
  struct_logger : Option StructLoggerConfig
deriving Repr, DecidableEq

/-- `Tracers::count_active_tracers`: active tracers excluding the struct
logger. -/
def Tracers.count_active_tracers (t : Tracers) : Nat :=
  let count := 0
  let count := if t.four_byte_tracer then count + 1 else count
  let count := if t.call_tracer.isSome then count + 1 else count
  let count := if t.prestate_tracer.isSome then count + 1 else count
  count

/-- `Tracers::is_mux`. -/
def Tracers.is_mux (t : Tracers) : Bool :=
  t.count_active_tracers ≥ 2

/-- `TraceConfig`. -/
structure TraceConfig where
  tracers : Tracers
deriving Repr, DecidableEq

/-! ## Geth tracing options (the alloy types built by
`handlers/trace/conversion.rs` and `handlers/trace/strategy.rs`) -/

/-- Alloy `GethDebugBuiltInTracerType` (the variants this service uses). -/
inductive GethDebugBuiltInTracerType where
  | fourByteTracer
  | callTracer
  | preStateTracer
  | noopTracer
  | muxTracer
deriving Repr, DecidableEq

/-- Alloy `CallConfig`. -/
structure CallConfig where
  only_top_call : Option Bool
  with_log : Option Bool
deriving Repr, DecidableEq

/-- Alloy `CallConfig::default()`. -/
def CallConfig.defaultCfg : CallConfig :=
  { only_top_call := none, with_log := none }

/-- Alloy `PreStateConfig`. -/
structure PreStateConfig where
  diff_mode : Option Bool
  disable_code : Option Bool
  disable_storage : Option Bool
deriving Repr, DecidableEq

/-- Alloy `GethDefaultTracingOptions` (struct-logger options). -/
structure GethDefaultTracingOptions where
  disable_memory : Option Bool
  disable_stack : Option Bool
  disable_storage : Option Bool
  disable_return_data : Option Bool
  enable_return_data : Option Bool
  enable_memory : Option Bool
  debug : Option Bool
  limit : Option Nat
deriving Repr, DecidableEq

/-- Alloy `GethDefaultTracingOptions::default()`: everything unset. -/
def GethDefaultTracingOptions.defaultCfg : GethDefaultTracingOptions :=
  { disable_memory := none, disable_stack := none, disable_storage := none
    disable_return_data := none, enable_return_data := none, enable_memory := none
    debug := none, limit := none }

/-- Alloy `GethDebugTracerConfig`: an opaque JSON payload in alloy, modelled
by the configurations this service serializes into it.  Mux entries are kept
in their push order (the Rust `HashMap` is unordered; no claim depends on the
order). -/
inductive GethDebugTracerConfig where
  | defaultCfg
  | ofCall (c : CallConfig)
  | ofPrestate (c : PreStateConfig)
  | ofMux (entries : List (GethDebugBuiltInTracerType × Option GethDebugTracerConfig))
deriving Repr

/-- Alloy `GethDebugTracerType`. -/
inductive GethDebugTracerType where
  | builtInTracer (t : GethDebugBuiltInTracerType)
  | jsTracer (code : String)
deriving Repr

/-- Alloy `GethDebugTracingOptions`. -/
structure GethDebugTracingOptions where
  config : GethDefaultTracingOptions
  tracer : Option GethDebugTracerType
  tracer_config : GethDebugTracerConfig
  timeout : Option String
deriving Repr

/-- `impl From<&CallTracerConfig> for CallConfig` from
`handlers/trace/conversion.rs`. -/
def CallConfig.ofTracerConfig (config : CallTracerConfig) : CallConfig :=
  { only_top_call := some config.only_top_call, with_log := some config.with_logs }

/-- `impl From<&PrestateTracerConfig> for PreStateConfig`. -/
def PreStateConfig.ofTracerConfig (config : PrestateTracerConfig) : PreStateConfig :=
  { diff_mode := some config.diff_mode
    disable_code := some config.disable_code
    disable_storage := some config.disable_storage }

/-- `impl From<&StructLoggerConfig> for GethDefaultTracingOptions`. -/
def GethDefaultTracingOptions.ofStructLogger (config : StructLoggerConfig) :
    GethDefaultTracingOptions :=
  { disable_memory := some config.disable_memory
    disable_stack := some config.disable_stack
    disable_storage := some config.disable_storage
    disable_return_data := some config.disable_return_data
    enable_return_data := some (!config.disable_return_data)
    enable_memory := some (!config.disable_memory)
    debug := none
    limit := none }

/-- `impl From<&Tracers> for MuxConfig`: one entry per active tracer
(excluding the struct logger), in push order. -/
def muxConfigOfTracers (tracers : Tracers) :
    List (GethDebugBuiltInTracerType × Option GethDebugTracerConfig) :=
  let mux_tracers := []
  let mux_tracers :=
    if tracers.four_byte_tracer then
      mux_tracers ++ [(GethDebugBuiltInTracerType.fourByteTracer, none)]
    else mux_tracers
  let mux_tracers :=
    match tracers.call_tracer with
    | some call_config =>
      mux_tracers ++ [(GethDebugBuiltInTracerType.callTracer,
        some (GethDebugTracerConfig.ofCall (CallConfig.ofTracerConfig call_config)))]
    | none => mux_tracers
  let mux_tracers :=
    match tracers.prestate_tracer with
    | some prestate_config =>
      mux_tracers ++ [(GethDebugBuiltInTracerType.preStateTracer,
        some (GethDebugTracerConfig.ofPrestate (PreStateConfig.ofTracerConfig prestate_config)))]
    | none => mux_tracers
  mux_tracers

/-- `impl From<&TraceConfig> for GethDebugTracingOptions` from
`handlers/trace/conversion.rs`: single tracer used directly, several active
tracers multiplexed, struct logger alone as the default tracer. -/
def GethDebugTracingOptions.ofTraceConfig (config : TraceConfig) : GethDebugTracingOptions :=
  let tracers := config.tracers
  let active_count := tracers.count_active_tracers
  match active_count with
  | 0 =>
    match tracers.struct_logger with
    | some struct_config =>
      { config := GethDefaultTracingOptions.ofStructLogger struct_config
        tracer := none
        tracer_config := GethDebugTracerConfig.defaultCfg
        timeout := none }
    | none =>
      { config := GethDefaultTracingOptions.defaultCfg
        tracer := none
        tracer_config := GethDebugTracerConfig.defaultCfg
        timeout := none }
  | 1 =>
    if tracers.four_byte_tracer then
      { config := GethDefaultTracingOptions.defaultCfg
        tracer := some (GethDebugTracerType.builtInTracer GethDebugBuiltInTracerType.fourByteTracer)
        tracer_config := GethDebugTracerConfig.defaultCfg
        timeout := none }
    else
      match tracers.call_tracer with
      | some call_config =>
        { config := GethDefaultTracingOptions.defaultCfg
          tracer := some (GethDebugTracerType.builtInTracer GethDebugBuiltInTracerType.callTracer)
          tracer_config := GethDebugTracerConfig.ofCall (CallConfig.ofTracerConfig call_config)
          timeout := none }
      | none =>
        match tracers.prestate_tracer with
        | some prestate_config =>
          { config := GethDefaultTracingOptions.defaultCfg
            tracer :=
              some (GethDebugTracerType.builtInTracer GethDebugBuiltInTracerType.preStateTracer)
            tracer_config :=
              GethDebugTracerConfig.ofPrestate (PreStateConfig.ofTracerConfig prestate_config)
            timeout := none }
        | none =>
          { config := GethDefaultTracingOptions.defaultCfg
            tracer := none
            tracer_config := GethDebugTracerConfig.defaultCfg
            timeout := none }
  | _ =>
    { config := GethDefaultTracingOptions.defaultCfg
      tracer := some (GethDebugTracerType.builtInTracer GethDebugBuiltInTracerType.muxTracer)
      tracer_config := GethDebugTracerConfig.ofMux (muxConfigOfTracers tracers)
      timeout := none }

/-- Alloy `GethDebugTracingOptions::call_tracer(config)`: the call tracer
selected with the given call configuration. -/
def GethDebugTracingOptions.call_tracer (c : CallConfig) : GethDebugTracingOptions :=
  { config := GethDefaultTracingOptions.defaultCfg
    tracer := some (GethDebugTracerType.builtInTracer GethDebugBuiltInTracerType.callTracer)
    tracer_config := GethDebugTracerConfig.ofCall c
    timeout := none }

/-! ## Tracing strategy (`handlers/trace/strategy.rs`) -/

/-- `TracingStrategy`. -/
inductive TracingStrategy where
  | structLoggerOnly (options : GethDebugTracingOptions)
  | tracersOnly (options : GethDebugTracingOptions)
  | hybrid (tracers_options : GethDebugTracingOptions)
      (struct_logger_options : GethDebugTracingOptions)
deriving Repr

/-- `TracingStrategy::from_config` (lines 38-88).  The source matches on
`(active_count, has_struct_logger)` with guards and unwraps `struct_logger`
under `has_struct_logger == true`; the match below carries the unwrapped
value instead. -/
def TracingStrategy.from_config (config : TraceConfig) : TracingStrategy :=
  let tracers := config.tracers
  let active_count := tracers.count_active_tracers
  match active_count, tracers.struct_logger with
  | 0, some struct_config =>
    TracingStrategy.structLoggerOnly
      { config := GethDefaultTracingOptions.ofStructLogger struct_config
        tracer := none
        tracer_config := GethDebugTracerConfig.defaultCfg
        timeout := none }
  | _ + 1, none =>
    TracingStrategy.tracersOnly (GethDebugTracingOptions.ofTraceConfig config)
  | _ + 1, some struct_config =>
    let tracers_config : TraceConfig :=
      { tracers := { four_byte_tracer := tracers.four_byte_tracer
                     call_tracer := tracers.call_tracer
                     prestate_tracer := tracers.prestate_tracer
                     struct_logger := none } }
    TracingStrategy.hybrid (GethDebugTracingOptions.ofTraceConfig tracers_config)
      { config := GethDefaultTracingOptions.ofStructLogger struct_config
        tracer := none
        tracer_config := GethDebugTracerConfig.defaultCfg
        timeout := none }
  | 0, none =>
    TracingStrategy.tracersOnly (GethDebugTracingOptions.call_tracer CallConfig.defaultCfg)

/-- The three strategy variants, payloads forgotten. -/
inductive StrategyKind where
  | structLoggerOnlyK
  | tracersOnlyK
  | hybridK
deriving Repr, DecidableEq

/-- The variant of a strategy. -/
def TracingStrategy.variant : TracingStrategy → StrategyKind
  | .structLoggerOnly _ => StrategyKind.structLoggerOnlyK
  | .tracersOnly _ => StrategyKind.tracersOnlyK
  | .hybrid _ _ => StrategyKind.hybridK

/-- The decision table of the specification, a function of the active-tracer
count and whether the struct logger is set: `(0, yes)` struct logger only,
`(>0, no)` tracers only, `(>0, yes)` hybrid, `(0, no)` the default-tracer
fallback (which is a `TracersOnly` strategy). -/
def strategyVariantSpec : Nat → Bool → StrategyKind
  | 0, true => StrategyKind.structLoggerOnlyK
  | 0, false => StrategyKind.tracersOnlyK
  | _ + 1, false => StrategyKind.tracersOnlyK
  | _ + 1, true => StrategyKind.hybridK

/-! ## Trace frames (the alloy geth frame types) -/

/-- JSON values (`serde_json::Value`); object fields keep their order. -/
inductive Json where
  | null
  | bool (b : Bool)
  | num (n : Int)
  | str (s : String)
  | arr (elems : List Json)
  | obj (fields : List (String × Json))
deriving Repr

/-- Alloy `StructLog`: one opcode log entry of the default tracer.  Stack
words, storage keys and values are fixed-width numbers, byte blobs are byte
lists. -/
structure AlloyStructLog where
  pc : Nat
  op : String
  gas : Nat
  gas_cost : Nat
  depth : Nat
  error : Option String
  stack : Option (List Nat)
  return_data : Option (List Nat)
  memory : Option (List String)
  memory_size : Option Nat
  storage : Option (List (Nat × Nat))
  refund_counter : Option Nat
deriving Repr

/-- Alloy `DefaultFrame`: the struct-logger frame. -/
structure DefaultFrame where
  failed : Bool
  gas : Nat
  return_value : List Nat
  struct_logs : List AlloyStructLog
deriving Repr

/-- Alloy `FourByteFrame`: selector-and-size keys to call counts. -/
structure FourByteFrame where
  entries : List (String × Nat)
deriving Repr

/-- One log inside an alloy `CallFrame`. -/
structure CallLogFrame where
  address : Option Nat
  topics : Option (List Nat)
  data : Option (List Nat)
deriving Repr

/-- Alloy `CallFrame`: one node of the call tree (recursive, hence an
inductive with one constructor; the `from` and `to` fields are `fromAddr`
and `toAddr`, both Lean keywords). -/
inductive AlloyCallFrame where
  | mk (fromAddr : Nat) (gas : Nat) (gas_used : Nat) (toAddr : Option Nat)
      (input : List Nat) (output : Option (List Nat)) (error : Option String)
      (revert_reason : Option String) (calls : List AlloyCallFrame)
      (logs : List CallLogFrame) (value : Option Nat) (typ : String)

/-- The sub-calls of a call frame. -/
def AlloyCallFrame.calls : AlloyCallFrame → List AlloyCallFrame
  | .mk _ _ _ _ _ _ _ _ calls _ _ _ => calls

/-- Alloy `AccountState` of the prestate tracer. -/
structure AlloyAccountState where
  balance : Option Nat
  code : Option (List Nat)
  nonce : Option Nat
  storage : List (Nat × Nat)
deriving Repr

/-- Alloy `PreStateFrame`: default mode or diff mode. -/
inductive PreStateFrame where
  | defaultMode (accounts : List (Nat × AlloyAccountState))
  | diff (pre : List (Nat × AlloyAccountState)) (post : List (Nat × AlloyAccountState))
deriving Repr

/-- Alloy `GethTrace`: the decoded shape of one remote trace payload. -/
inductive GethTrace where
  | defaultFrame (f : DefaultFrame)
  | callTracer (f : AlloyCallFrame)
  | fourByteTracer (f : FourByteFrame)
  | preStateTracer (f : PreStateFrame)
  | muxTracer (entries : List (GethDebugBuiltInTracerType × GethTrace))
  | noopTracer
  | js (v : Json)

/-! ## Strategy execution (`handlers/trace/strategy.rs` lines 108-132 and
200-245)

The remote `debug_trace_*` calls are injected as the `trace_fn` argument.
`tokio::try_join!` resolves to `Ok` of both values when both futures succeed
and otherwise to the first error; with the injected deterministic outcomes
this is the sequential short-circuit below. -/

/-- A transaction hash (`TxHash`, an opaque 256-bit value). -/
structure TxHash where
  val : Nat
deriving Repr, DecidableEq

/-- `TracingResult`. -/
inductive TracingResult where
  | single (trace : GethTrace)
  | dual (tracers_trace : GethTrace) (struct_logger_trace : GethTrace)

/-- `TracingStrategy::execute`. -/
def TracingStrategy.execute {E : Type} (strategy : TracingStrategy) (tx_hash : TxHash)
    (trace_fn : TxHash → GethDebugTracingOptions → Except E GethTrace) :
    Except E TracingResult :=
  match strategy with
  | .structLoggerOnly options | .tracersOnly options =>
    match trace_fn tx_hash options with
    | .ok trace => .ok (TracingResult.single trace)
    | .error e => .error e
  | .hybrid tracers_options struct_logger_options =>
    match trace_fn tx_hash tracers_options, trace_fn tx_hash struct_logger_options with
    | .ok tracers_trace, .ok struct_logger_trace =>
      .ok (TracingResult.dual tracers_trace struct_logger_trace)
    | .error e, _ => .error e
    | _, .error e => .error e

/-- A bundle of a `debug_traceCallMany` request (opaque payload). -/
structure Bundle where
  payload : Json
deriving Repr

/-- The alloy bundle the request bundle converts into. -/
structure AlloyBundle where
  payload : Json
deriving Repr

/-- `impl From<Bundle> for alloy Bundle` (a field-for-field conversion). -/
def Bundle.toAlloy (b : Bundle) : AlloyBundle :=
  { payload := b.payload }

/-- The state context of a `debug_traceCallMany` request (opaque). -/
structure StateContext where
  payload : Json
deriving Repr

/-- `TraceCallManyRequest`: the fields `execute_call_many` reads. -/
structure TraceCallManyRequest where
  bundles : List Bundle
  state_context : StateContext
  tracer_config : TraceConfig
deriving Repr

/-- `GethDebugTracingCallOptions`: tracing options plus overrides (none are
set on the call-many path). -/
structure GethDebugTracingCallOptions where
  tracing_options : GethDebugTracingOptions
  state_overrides : Option Unit
  block_overrides : Option Unit
deriving Repr

/-- `TracingStrategy::create_call_options` with no overrides, as used by
`execute_call_many`. -/
def TracingStrategy.create_call_options_plain (base_options : GethDebugTracingOptions) :
    GethDebugTracingCallOptions :=
  { tracing_options := base_options, state_overrides := none, block_overrides := none }

/-- `TracingResultMany`. -/
inductive TracingResultMany where
  | single (traces : List GethTrace)
  | dual (tracers_trace : List GethTrace) (struct_logger_trace : List GethTrace)

/-- `TracingStrategy::execute_call_many`. -/
def TracingStrategy.execute_call_many {E : Type} (strategy : TracingStrategy)
    (call_request : TraceCallManyRequest)
    (trace_fn : List AlloyBundle → StateContext → GethDebugTracingCallOptions →
      Except E (List GethTrace)) :
    Except E TracingResultMany :=
  let alloy_bundles := call_request.bundles.map Bundle.toAlloy
  let alloy_state_context := call_request.state_context
  match strategy with
  | .structLoggerOnly options | .tracersOnly options =>
    let call_options := TracingStrategy.create_call_options_plain options
    match trace_fn alloy_bundles alloy_state_context call_options with
    | .ok trace => .ok (TracingResultMany.single trace)
    | .error e => .error e
  | .hybrid tracers_options struct_logger_options =>
    let tracers_call_options := TracingStrategy.create_call_options_plain tracers_options
    let struct_logger_call_options :=
      TracingStrategy.create_call_options_plain struct_logger_options
    match trace_fn alloy_bundles alloy_state_context tracers_call_options,
        trace_fn alloy_bundles alloy_state_context struct_logger_call_options with
    | .ok tracers_trace, .ok struct_logger_trace =>
      .ok (TracingResultMany.dual tracers_trace struct_logger_trace)
    | .error e, _ => .error e
    | _, .error e => .error e

/-! ## Trace result normalization (`handlers/trace/response/*.rs`) -/

/-- `StructLog` of the API response (all display strings precomputed). -/
structure StructLog where
  pc : Nat
  op : String
  gas : Nat
  gas_cost : Nat
  depth : Nat
  error : Option String
  stack : Option (List String)
  return_data : Option String
  memory : Option (List String)
  memory_size : Option Nat
  storage : Option (List (String × String))
deriving Repr

/-- `impl From<AlloyStructLog> for StructLog` from
`handlers/trace/response/struct_log.rs`: stack words and return data become
`0x`-prefixed lowercase hex, storage keys and values their 32-byte debug
form.  The API `StructLog` also carries the raw refund counter field, which
is kept on the alloy side here since the response never reads it back. -/
def StructLog.ofAlloy (log : AlloyStructLog) : StructLog :=
  { pc := log.pc
    op := log.op
    gas := log.gas
    gas_cost := log.gas_cost
    depth := log.depth
    error := log.error
    stack := log.stack.map fun stack => stack.map fun s => "0x" ++ hexString s
    return_data := log.return_data.map fun s => "0x" ++ bytesHex s
    memory := log.memory
    memory_size := log.memory_size
    storage := log.storage.map fun storage =>
      storage.map fun kv => ("0x" ++ padHex 64 kv.1, "0x" ++ padHex 64 kv.2) }

/-- `StructLogResponse`. -/
structure StructLogResponse where
  inner : Option (List StructLog)
  total_opcodes : Nat
  error : Option String
  output : Option String
  total_gas : Nat
  total_gas_refunded : Option Nat
  refund_counter : Option Nat
deriving Repr

/-- `StructLogResponse::clean`: drop the verbose per-opcode array. -/
def StructLogResponse.clean (r : StructLogResponse) : StructLogResponse :=
  { r with inner := none }

/-- The refund loop of `impl From<DefaultFrame> for StructLogResponse`
(lines 63-74): the three mutable accumulators `total_gas_refunded`,
`total_refund_counter` and `last_gas_refunded_state` threaded through the
log sequence. -/
def refundScan : List AlloyStructLog → Nat → Nat → Nat → Nat × Nat
  | [], total_gas_refunded, total_refund_counter, _ =>
    (total_gas_refunded, total_refund_counter)
  | log :: rest, g, c, state =>
    if log.refund_counter.isSome && state == 0 then
      refundScan rest (g + log.refund_counter.getD 0) (c + 1) 1
    else if log.refund_counter.isNone && state != 0 then
      refundScan rest g c 0
    else
      refundScan rest g c state

/-- `impl From<DefaultFrame> for StructLogResponse` from
`handlers/trace/response/struct_log.rs` (lines 49-104). -/
def StructLogResponse.from_default_frame (frame : DefaultFrame) : StructLogResponse :=
  let scanned := refundScan frame.struct_logs 0 0 0
  let total_gas_refunded := scanned.1
  let total_refund_counter := scanned.2
  let gas := frame.gas
  let output :=
    if frame.return_value.isEmpty then none
    else some ("0x" ++ bytesHex frame.return_value)
  let error := frame.struct_logs.reverse.findSome? fun log => log.error
  let struct_logs := frame.struct_logs.map StructLog.ofAlloy
  let total_opcode := struct_logs.length
  { inner := some struct_logs
    total_opcodes := total_opcode
    error
    output
    total_gas := gas
    total_gas_refunded := some total_gas_refunded
    refund_counter := some total_refund_counter }

/-- The count the specification describes for the refund-event counter: one
event per transition of the refund counter from absent to present, i.e. one
per maximal run of consecutive present entries.  Each entry is paired with
its predecessor (the first with a sentinel absent predecessor) and the pairs
with an absent predecessor and a present entry are counted. -/
def refundEventCount (rs : List (Option Nat)) : Nat :=
  (List.zip (none :: rs) rs).countP fun p => p.1.isNone && p.2.isSome

/-- `FourByteId` and `FourByteInfo` of `FourByteResponse`, as one entry. -/
structure FourByteInfo where
  data_size : Nat
  count : Nat
deriving Repr, DecidableEq

/-- `FourByteResponse` (the `HashMap` is modelled as the association list in
insertion order). -/
structure FourByteResponse where
  identifiers : List (String × FourByteInfo)
  total_identifiers : Nat
deriving Repr

/-- Rust `str::split_once(c)`: the pieces before and after the first
occurrence of `c`. -/
def splitOnce (c : Char) : List Char → Option (List Char × List Char)
  | [] => none
  | x :: rest =>
    if x = c then some ([], rest)
    else (splitOnce c rest).map fun p => (x :: p.1, p.2)

/-- Accumulate decimal digits; fails on the first non-digit. -/
def parseDecDigits : List Char → Nat → Option Nat
  | [], acc => some acc
  | c :: rest, acc =>
    if c.isDigit then parseDecDigits rest (acc * 10 + (c.toNat - 48)) else none

/-- `impl From<FourByteFrame> for FourByteResponse` from
`handlers/trace/response/four_byte.rs`.  The source unwraps the
`SELECTOR-DATASIZE` split and the decimal parse (panicking on malformed
keys); outside that domain this model yields an empty selector or size 0. -/
def FourByteResponse.from_frame (frame : FourByteFrame) : FourByteResponse :=
  let total_identifiers := frame.entries.length
  let identifiers := frame.entries.map fun idCount =>
    match splitOnce '-' idCount.1.data with
    | some p =>
      (String.mk p.1,
        { data_size := (parseDecDigits p.2 0).getD 0, count := idCount.2 : FourByteInfo })
    | none => ("", { data_size := 0, count := idCount.2 : FourByteInfo })
  { identifiers, total_identifiers }

/-- `AccountState` of the prestate response. -/
structure AccountState where
  balance : Option String
  code : Option String
  nonce : Option Nat
  storage : List (String × String)
deriving Repr

/-- `impl From<AlloyAccountState> for AccountState`. -/
def AccountState.ofAlloy (state : AlloyAccountState) : AccountState :=
  { balance := state.balance.map fun b => "0x" ++ hexString b
    code := state.code.map fun c => "0x" ++ bytesHex c
    nonce := state.nonce
    storage := state.storage.map fun kv => ("0x" ++ padHex 64 kv.1, "0x" ++ padHex 64 kv.2) }

/-- `PrestateTraceResponse` from `handlers/trace/response/pre_state.rs`. -/
inductive PrestateTraceResponse where
  | defaultMode (accounts : List (String × AccountState))
  | diff (pre : List (String × AccountState)) (post : List (String × AccountState))
deriving Repr

/-- Debug form of a 20-byte address. -/
def addrDebug (a : Nat) : String :=
  "0x" ++ padHex 40 a

/-- `impl From<PreStateFrame> for PrestateTraceResponse`. -/
def PrestateTraceResponse.from_frame : PreStateFrame → PrestateTraceResponse
  | .defaultMode accounts =>
    PrestateTraceResponse.defaultMode
      (accounts.map fun p => (addrDebug p.1, AccountState.ofAlloy p.2))
  | .diff pre post =>
    PrestateTraceResponse.diff
      (pre.map fun p => (addrDebug p.1, AccountState.ofAlloy p.2))
      (post.map fun p => (addrDebug p.1, AccountState.ofAlloy p.2))

/-- `LogEntry` from `types` (as built by the call-frame conversion). -/
structure LogEntry where
  address : String
  topics : List String
  data : String
deriving Repr

/-- `CallFrame` of the call-trace response (recursive). -/
inductive CallFrame where
  | mk (call_type : String) (fromAddr : String) (toAddr : Option String) (value : String)
      (gas : String) (gas_used : String) (input : String) (output : String) (depth : Nat)
      (reverted : Bool) (error : Option String) (revert_reason : Option String)
      (calls : List CallFrame) (logs : List LogEntry)

/-- `CallFrame::from_alloy_with_stats` from `handlers/trace/response/call.rs`:
pre-order traversal computing the converted node together with the updated
`total_calls` and `max_depth` accumulators. -/
def CallFrame.from_alloy_with_stats :
    AlloyCallFrame → Nat → Nat → Nat → CallFrame × Nat × Nat
  | .mk fromAddr gas gas_used toAddr input output error revert_reason calls logs value typ,
      depth, total_calls, max_depth =>
    let total_calls := total_calls + 1
    let max_depth := if depth > max_depth then depth else max_depth
    let converted := convert_list calls (depth + 1) total_calls max_depth
    let sub_calls := converted.1
    let total_calls := converted.2.1
    let max_depth := converted.2.2
    let converted_logs := logs.map fun log =>
      { address := (log.address.map addrDebug).getD ""
        topics := (log.topics.map fun topics => topics.map fun t => "0x" ++ padHex 64 t).getD []
        data := (log.data.map fun d => "0x" ++ bytesHex d).getD "0x" : LogEntry }
    (CallFrame.mk typ (addrDebug fromAddr) (toAddr.map addrDebug)
      ("0x" ++ hexString (value.getD 0)) ("0x" ++ hexString gas) ("0x" ++ hexString gas_used)
      ("0x" ++ bytesHex input)
      ((output.map fun o => "0x" ++ bytesHex o).getD "0x")
      depth error.isSome error revert_reason sub_calls converted_logs,
      total_calls, max_depth)
where
  /-- The `.iter().map(..)` over sub-calls, threading the accumulators. -/
  convert_list : List AlloyCallFrame → Nat → Nat → Nat → List CallFrame × Nat × Nat
  | [], _, total_calls, max_depth => ([], total_calls, max_depth)
  | f :: rest, depth, total_calls, max_depth =>
    let head := CallFrame.from_alloy_with_stats f depth total_calls max_depth
    let tail := convert_list rest depth head.2.1 head.2.2
    (head.1 :: tail.1, tail.2)

/-- `CallTraceResponse`. -/
structure CallTraceResponse where
  root_call : CallFrame
  total_calls : Nat
  max_depth : Nat

/-- `impl From<AlloyCallFrame> for CallTraceResponse`. -/
def CallTraceResponse.from_frame (frame : AlloyCallFrame) : CallTraceResponse :=
  let converted := CallFrame.from_alloy_with_stats frame 0 0 0
  { root_call := converted.1, total_calls := converted.2.1, max_depth := converted.2.2 }

/-- `TransactionReceiptInfo` (opaque to the normalizer). -/
structure TransactionReceiptInfo where
  raw : Json

/-- `TracerResponse`: the unified container with one independently optional
field per tracer. -/
structure TracerResponse where
  receipt : Option TransactionReceiptInfo
  call_tracer : Option CallTraceResponse
  prestate_tracer : Option PrestateTraceResponse
  struct_logger : Option StructLogResponse
  four_byte_tracer : Option FourByteResponse

/-- `TracerResponse::default()`. -/
def TracerResponse.empty : TracerResponse :=
  { receipt := none, call_tracer := none, prestate_tracer := none
    struct_logger := none, four_byte_tracer := none }

/-- The four `serde_json::from_value` decoders used by
`try_extract_single_trace`.  Deserialization of the alloy frame types is
external library behavior, injected here as the decoder bundle. -/
structure FrameDecoders where
  four_byte : Json → Option FourByteFrame
  call : Json → Option AlloyCallFrame
  prestate : Json → Option PreStateFrame
  default_frame : Json → Option DefaultFrame

/-- One iteration of the tracer-name-keyed fallback loop of
`try_extract_single_trace` (lines 173-200): `4byteTracer`, `callTracer` and
`prestateTracer` entries that decode are stored, everything else ignored. -/
def demux_entry (D : FrameDecoders) (response : TracerResponse) (kv : String × Json) :
    TracerResponse :=
  if kv.1 = "4byteTracer" then
    match D.four_byte kv.2 with
    | some four_byte_frame =>
      { response with four_byte_tracer := some (FourByteResponse.from_frame four_byte_frame) }
    | none => response
  else if kv.1 = "callTracer" then
    match D.call kv.2 with
    | some call_frame =>
      { response with call_tracer := some (CallTraceResponse.from_frame call_frame) }
    | none => response
  else if kv.1 = "prestateTracer" then
    match D.prestate kv.2 with
    | some prestate_frame =>
      { response with
          prestate_tracer := some (PrestateTraceResponse.from_frame prestate_frame) }
    | none => response
  else response

/-- `TracerResponse::try_extract_single_trace` from
`handlers/trace/response/mod.rs` (lines 150-202): on a JSON object, try the
four frame decoders in the written order, store the first hit and return;
if none decode, run the tracer-name-keyed fallback over the object fields;
non-objects are left untouched. -/
def try_extract_single_trace (D : FrameDecoders) (value : Json)
    (response : TracerResponse) : TracerResponse :=
  match value with
  | .obj fields =>
    match D.four_byte value with
    | some four_byte_frame =>
      { response with four_byte_tracer := some (FourByteResponse.from_frame four_byte_frame) }
    | none =>
      match D.call value with
      | some call_frame =>
        { response with call_tracer := some (CallTraceResponse.from_frame call_frame) }
      | none =>
        match D.prestate value with
        | some prestate_frame =>
          { response with
              prestate_tracer := some (PrestateTraceResponse.from_frame prestate_frame) }
        | none =>
          match D.default_frame value with
          | some default_frame =>
            { response with
                struct_logger := some (StructLogResponse.from_default_frame default_frame) }
          | none => fields.foldl (demux_entry D) response
  | _ => response

/-- `TracerResponse::extract_from_js_trace`: arrays are demultiplexed
element-wise, everything else goes through `try_extract_single_trace`. -/
def extract_from_js_trace (D : FrameDecoders) (json_value : Json)
    (response : TracerResponse) : TracerResponse :=
  match json_value with
  | .arr elems => elems.foldl (fun r element => try_extract_single_trace D element r) response
  | _ => try_extract_single_trace D json_value response

/-- The disambiguation procedure in the words of the specification: the
ordered attempt list four-byte, call, prestate, struct-log; the first
decoder that succeeds routes the object, and only when all four fail is the
object treated as a tracer-name-keyed map and demultiplexed per entry. -/
def spec_attempts (D : FrameDecoders) (value : Json) :
    List (Option (TracerResponse → TracerResponse)) :=
  [(D.four_byte value).map fun f r =>
      { r with four_byte_tracer := some (FourByteResponse.from_frame f) },
   (D.call value).map fun f r =>
      { r with call_tracer := some (CallTraceResponse.from_frame f) },
   (D.prestate value).map fun f r =>
      { r with prestate_tracer := some (PrestateTraceResponse.from_frame f) },
   (D.default_frame value).map fun f r =>
      { r with struct_logger := some (StructLogResponse.from_default_frame f) }]

/-- The specification's statement of `try_extract_single_trace`: pick the
first successful attempt in the fixed priority order, and demultiplex per
key only when none succeeds. -/
def try_extract_single_trace_spec (D : FrameDecoders) (value : Json)
    (response : TracerResponse) : TracerResponse :=
  match value with
  | .obj fields =>
    match (spec_attempts D value).findSome? id with
    | some update => update response
    | none => fields.foldl (demux_entry D) response
  | _ => response

/-! ## Helper lemmas -/

/-- A string with a non-empty left part of an append is non-empty. -/
lemma append_ne_empty_of_left (s t : String) (h : s.data ≠ []) : s ++ t ≠ "" := by
  intro he
  apply h
  have hd := congrArg String.data he
  rw [String.data_append] at hd
  exact (List.append_eq_nil.mp hd).1

/-- The sanitized reason attached to every degraded simulation call is never
empty: each classification either picks a canned text or a display string
with a non-empty literal prefix. -/
lemma sanitizedReason_ne_empty (e : TransportError) :
    sanitizedReasonFor (RpcError.ofTransport e) ≠ "" := by
  cases e with
  | transport kind =>
    cases kind with
    | missingBatchResponse idDebug =>
      exact append_ne_empty_of_left _ _ (by decide)
    | backendGone => decide
    | pubsubUnavailable => decide
    | httpError status body =>
      simp only [RpcError.ofTransport]
      split
      · decide
      · split
        · exact append_ne_empty_of_left _ _ (by decide)
        · split
          · split
            · decide
            · exact append_ne_empty_of_left _ _ (by decide)
          · exact append_ne_empty_of_left _ _ (by decide)
    | custom msg => exact append_ne_empty_of_left _ _ (by decide)
    | otherKind => decide
  | serError msg => exact append_ne_empty_of_left _ _ (by decide)
  | deserError err text => exact append_ne_empty_of_left _ _ (by decide)
  | errorResp payload =>
    simp only [RpcError.ofTransport]
    split
    · show ("Transaction execution reverted" : String) ≠ ""
      decide
    · exact append_ne_empty_of_left _ _ (by decide)
  | nullResp => decide
  | unsupportedFeature feature => exact append_ne_empty_of_left _ _ (by decide)
  | otherError => decide

/-- A left fold that adds modulo `M` agrees with the plain sum while the sum
stays below `M`. -/
lemma foldl_wrap_eq_sum {α : Type} (f : α → Nat) (M : Nat) (l : List α) :
    ∀ acc : Nat, acc + (l.map f).sum < M →
      l.foldl (fun a x => (a + f x) % M) acc = acc + (l.map f).sum := by
  induction l with
  | nil => intro acc _; simp
  | cons x xs ih =>
    intro acc h
    simp only [List.map_cons, List.sum_cons] at h
    simp only [List.foldl_cons, List.map_cons, List.sum_cons]
    rw [Nat.mod_eq_of_lt (by omega), ih (acc + f x) (by omega)]
    omega

/-- The stateful refund loop counts exactly the transitions of the refund
counter from absent to present: the second component of `refundScan` is the
count of entries that are present while their predecessor (tracked by the
scan state, absent encoded as 0) is absent. -/
lemma refundScan_snd_eq (logs : List AlloyStructLog) :
    ∀ (g c : Nat) (prev : Option Nat),
      (refundScan logs g c (if prev.isNone then 0 else 1)).2 =
        c + (((prev :: logs.map fun l => l.refund_counter).zip
            (logs.map fun l => l.refund_counter)).countP
          fun p => p.1.isNone && p.2.isSome) := by
  induction logs with
  | nil =>
    intro g c prev
    simp [refundScan]
  | cons log rest ih =>
    intro g c prev
    cases prev with
    | none =>
      cases hrc : log.refund_counter with
      | some v =>
        have h1 := ih (g + v) (c + 1) (some v)
        simp only [Option.isNone_some, Bool.false_eq_true, if_false] at h1
        simp only [Option.isNone_none, if_true, refundScan, hrc, Option.isSome_some,
          Bool.true_and, beq_self_eq_true, if_pos, Option.getD_some, List.map_cons,
          List.zip_cons_cons, List.countP_cons, Option.isNone_none, Bool.true_and,
          Option.isSome_some, if_pos]
        rw [h1]
        omega
      | none =>
        have h1 := ih g c none
        simp only [Option.isNone_none, if_true] at h1
        simp only [Option.isNone_none, if_true, refundScan, hrc, Option.isSome_none,
          Bool.false_and, Option.isNone_none, Bool.true_and, List.map_cons,
          List.zip_cons_cons, List.countP_cons, Option.isSome_none, Bool.and_false]
        simp only [bne_self_eq_false, Bool.false_eq_true, if_false]
        rw [h1]
        simp
    | some w =>
      cases hrc : log.refund_counter with
      | some v =>
        have h1 := ih g c (some v)
        simp only [Option.isNone_some, Bool.false_eq_true, if_false] at h1
        simp only [Option.isNone_some, Bool.false_eq_true, if_false, refundScan, hrc,
          Option.isSome_some, Bool.true_and, List.map_cons, List.zip_cons_cons,
          List.countP_cons, Option.isNone_some, Bool.false_and]
        simp only [show ((1 : Nat) == 0) = false from rfl, Bool.false_eq_true, if_false,
          Option.isNone_some, Bool.false_and, Bool.and_true]
        rw [h1]
        simp
      | none =>
        have h1 := ih g c none
        simp only [Option.isNone_none, if_true] at h1
        simp only [Option.isNone_some, Bool.false_eq_true, if_false, refundScan, hrc,
          Option.isSome_none, Bool.false_and, Option.isNone_none, Bool.true_and,
          List.map_cons, List.zip_cons_cons, List.countP_cons, Bool.and_false,
          Option.isSome_none]
        simp only [show ((1 : Nat) != 0) = true from rfl, if_pos, Bool.false_eq_true,
          if_false, Option.isNone_some, Bool.false_and]
        rw [h1]
        simp

/-! ## Claims -/

/-- C1: `TracingStrategy::from_config` is a pure, total function whose chosen
variant depends only on `(activeCount, structLogger.isSome())`: `(0, true)`
yields `StructLoggerOnly`, `(n > 0, false)` yields `TracersOnly`,
`(n > 0, true)` yields `Hybrid`, and `(0, false)` (a configuration with no
tracer at all, so necessarily the all-unset tracer set) falls back to the
default call tracer as a `TracersOnly` strategy; no other field influences
the variant. -/
theorem from_config_variant_table (c : TraceConfig) :
    (TracingStrategy.from_config c).variant
        = strategyVariantSpec c.tracers.count_active_tracers c.tracers.struct_logger.isSome
      ∧ TracingStrategy.from_config
          { tracers := { four_byte_tracer := false, call_tracer := none,
                         prestate_tracer := none, struct_logger := none } }
        = TracingStrategy.tracersOnly
            (GethDebugTracingOptions.call_tracer CallConfig.defaultCfg) := by
  constructor
  · rcases c with ⟨⟨fb, ct, pt, sl⟩⟩
    cases fb <;> cases ct <;> cases pt <;> cases sl <;> rfl
  · rfl

/-- C2: for every requested call count and every injected RPC failure of the
remote simulate call, `simulate_transaction` returns `Ok` of a `Failed`
simulation result whose calls list has exactly the requested length, every
call `Reverted` and carrying a non-empty sanitized error reason. -/
theorem simulate_transaction_absorbs_rpc_failure (simulation_id : String) (k : Nat)
    (e : TransportError) :
    ∃ r, simulate_transaction_core simulation_id k (.error e) = .ok r ∧
      r.status = SimulationStatus.failed ∧
      r.calls.length = k ∧
      ∀ c ∈ r.calls, c.status = CallStatus.reverted ∧
        ∃ ce, c.error = some ce ∧ ce.reason ≠ "" := by
  refine ⟨_, rfl, rfl, ?_, ?_⟩
  · simp [simulate_transaction_core]
  · intro c hc
    simp only [simulate_transaction_core, List.mem_map, List.mem_range] at hc
    obtain ⟨i, _, rfl⟩ := hc
    exact ⟨rfl, _, rfl, sanitizedReason_ne_empty e⟩

/-- C2 witness: two requested calls and an injected null RPC response. -/
theorem simulate_transaction_absorbs_rpc_failure_witness :
    ∃ r, simulate_transaction_core "sim-1" 2 (.error TransportError.nullResp) = .ok r ∧
      r.status = SimulationStatus.failed ∧
      r.calls.length = 2 ∧
      ∀ c ∈ r.calls, c.status = CallStatus.reverted ∧
        ∃ ce, c.error = some ce ∧ ce.reason ≠ "" :=
  simulate_transaction_absorbs_rpc_failure "sim-1" 2 TransportError.nullResp

/-- C3: for the `Hybrid` strategy, `execute` (and `execute_call_many`)
returns `Ok` exactly when both injected remote calls return `Ok`, in which
case the outcome is `Dual` with both frames; when it fails the returned
error is one of the two call errors, and no `Single` (partial) outcome is
ever produced. -/
theorem hybrid_execution_failure_coupling {E : Type}
    (t_opts s_opts : GethDebugTracingOptions) (tx : TxHash)
    (trace_fn : TxHash → GethDebugTracingOptions → Except E GethTrace)
    (req : TraceCallManyRequest)
    (many_fn : List AlloyBundle → StateContext → GethDebugTracingCallOptions →
      Except E (List GethTrace)) :
    (∀ x, (TracingStrategy.hybrid t_opts s_opts).execute tx trace_fn = .ok x ↔
      ∃ a b, trace_fn tx t_opts = .ok a ∧ trace_fn tx s_opts = .ok b ∧
        x = TracingResult.dual a b) ∧
    (∀ err, (TracingStrategy.hybrid t_opts s_opts).execute tx trace_fn = .error err →
      trace_fn tx t_opts = .error err ∨ trace_fn tx s_opts = .error err) ∧
    (∀ f, (TracingStrategy.hybrid t_opts s_opts).execute tx trace_fn ≠
      .ok (TracingResult.single f)) ∧
    (∀ xs, (TracingStrategy.hybrid t_opts s_opts).execute_call_many req many_fn = .ok xs ↔
      ∃ a b,
        many_fn (req.bundles.map Bundle.toAlloy) req.state_context
            (TracingStrategy.create_call_options_plain t_opts) = .ok a ∧
        many_fn (req.bundles.map Bundle.toAlloy) req.state_context
            (TracingStrategy.create_call_options_plain s_opts) = .ok b ∧
        xs = TracingResultMany.dual a b) ∧
    (∀ err,
      (TracingStrategy.hybrid t_opts s_opts).execute_call_many req many_fn = .error err →
      many_fn (req.bundles.map Bundle.toAlloy) req.state_context
          (TracingStrategy.create_call_options_plain t_opts) = .error err ∨
      many_fn (req.bundles.map Bundle.toAlloy) req.state_context
          (TracingStrategy.create_call_options_plain s_opts) = .error err) := by
  refine ⟨?_, ?_, ?_, ?_, ?_⟩
  · intro x
    cases h1 : trace_fn tx t_opts <;> cases h2 : trace_fn tx s_opts <;>
      simp [TracingStrategy.execute, h1, h2]
    exact eq_comm
  · intro err
    cases h1 : trace_fn tx t_opts <;> cases h2 : trace_fn tx s_opts <;>
      simp [TracingStrategy.execute, h1, h2]
    exact fun h => Or.inl h
  · intro f
    cases h1 : trace_fn tx t_opts <;> cases h2 : trace_fn tx s_opts <;>
      simp [TracingStrategy.execute, h1, h2]
  · intro xs
    cases h1 : many_fn (req.bundles.map Bundle.toAlloy) req.state_context
        (TracingStrategy.create_call_options_plain t_opts) <;>
      cases h2 : many_fn (req.bundles.map Bundle.toAlloy) req.state_context
          (TracingStrategy.create_call_options_plain s_opts) <;>
        simp [TracingStrategy.execute_call_many, h1, h2]
    exact eq_comm
  · intro err
    cases h1 : many_fn (req.bundles.map Bundle.toAlloy) req.state_context
        (TracingStrategy.create_call_options_plain t_opts) <;>
      cases h2 : many_fn (req.bundles.map Bundle.toAlloy) req.state_context
          (TracingStrategy.create_call_options_plain s_opts) <;>
        simp [TracingStrategy.execute_call_many, h1, h2]
    exact fun h => Or.inl h

/-- Options whose tracer selector is set, for the hybrid witness. -/
def witnessTracersOptions : GethDebugTracingOptions :=
  GethDebugTracingOptions.call_tracer CallConfig.defaultCfg

/-- Options with no tracer selector (struct logger), for the hybrid witness. -/
def witnessStructOptions : GethDebugTracingOptions :=
  { config := GethDefaultTracingOptions.defaultCfg, tracer := none
    tracer_config := GethDebugTracerConfig.defaultCfg, timeout := none }

/-- An injected remote call that fails exactly on tracer-selecting options. -/
def witnessTraceFn (_ : TxHash) (o : GethDebugTracingOptions) : Except Nat GethTrace :=
  match o.tracer with
  | some _ => .error 7
  | none => .ok GethTrace.noopTracer

/-- A call-many request with no bundles, for the hybrid witness. -/
def witnessManyRequest : TraceCallManyRequest :=
  { bundles := [], state_context := ⟨Json.null⟩
    tracer_config := { tracers := { four_byte_tracer := false, call_tracer := none,
                                    prestate_tracer := none, struct_logger := none } } }

/-- C3 witness: with one of the two injected calls failing, the returned
error is one of the two call errors. -/
theorem hybrid_execution_failure_coupling_witness :
    witnessTraceFn ⟨0⟩ witnessTracersOptions = .error 7 ∨
      witnessTraceFn ⟨0⟩ witnessStructOptions = .error 7 :=
  (hybrid_execution_failure_coupling witnessTracersOptions witnessStructOptions ⟨0⟩
    witnessTraceFn witnessManyRequest fun _ _ _ => .ok []).2.1 7 rfl

/-- C4 counterexample: an upstream error-response payload containing the
literal `http://10.0.0.5:8545/rpc` is classified (through the `ErrorResp`
path) into an error whose outward display string still contains the raw URL
and the raw IP octets — the claimed invariant fails on this path. -/
theorem classification_keeps_raw_url_counterexample :
    strContains
        (RpcError.toMessage
          (RpcError.ofTransport
            (TransportError.errorResp "upstream failure at http://10.0.0.5:8545/rpc")))
        "http://10.0.0.5:8545/rpc" = true ∧
      strContains
        (RpcError.toMessage
          (RpcError.ofTransport
            (TransportError.errorResp "upstream failure at http://10.0.0.5:8545/rpc")))
        "10.0.0.5" = true := by decide

/-- C4 (amended): classification sanitizes upstream text only on the
transport-custom and HTTP-client-error-body paths; on those paths a message
containing `http://10.0.0.5:8545/rpc` is classified into strings containing
neither the literal URL nor the literal IP octets, and a bare IP literal is
likewise masked. -/
theorem sanitized_paths_strip_urls_and_ips :
    RpcError.ofTransport
        (TransportError.transport
          (TransportErrorKind.custom "request to http://10.0.0.5:8545/rpc failed"))
      = RpcError.internalError (-32603) "request to [RPC_ENDPOINT] failed" none ∧
    strContains
        (RpcError.toMessage
          (RpcError.ofTransport
            (TransportError.transport
              (TransportErrorKind.custom "request to http://10.0.0.5:8545/rpc failed"))))
        "http://10.0.0.5:8545/rpc" = false ∧
    strContains
        (RpcError.toMessage
          (RpcError.ofTransport
            (TransportError.transport
              (TransportErrorKind.custom "request to http://10.0.0.5:8545/rpc failed"))))
        "10.0.0.5" = false ∧
    RpcError.ofTransport
        (TransportError.transport
          (TransportErrorKind.httpError 400 "bad request from http://10.0.0.5:8545/rpc"))
      = RpcError.invalidParams "http_request" "HTTP 400: bad request from [RPC_ENDPOINT]" ∧
    strContains
        (RpcError.toMessage
          (RpcError.ofTransport
            (TransportError.transport
              (TransportErrorKind.httpError 400 "bad request from http://10.0.0.5:8545/rpc"))))
        "10.0.0.5" = false ∧
    RpcError.ofTransport
        (TransportError.transport (TransportErrorKind.custom "connect to 10.0.0.5:8545 now"))
      = RpcError.internalError (-32603) "connect to [RPC_HOST] now" none := by decide

/-- C5: `simulate_batch` succeeds on a non-empty request list with one result
per request, the i-th result being the per-item outcome of the i-th request
(input order mirrored) carrying the fresh identifier drawn for position i. -/
theorem simulate_batch_mirrors_input_order (requests : List SimulationRequestModel)
    (ids : Nat → String)
    (run : SimulationRequestModel → Except ServiceError SimulationResult)
    (h : requests ≠ []) :
    ∃ results, simulate_batch requests ids run = .ok results ∧
      results.length = requests.length ∧
      ∀ (i : Nat) (hi : i < results.length) (hr : i < requests.length),
        results.get ⟨i, hi⟩ = batch_item (ids i) (run (requests.get ⟨i, hr⟩)) ∧
        (results.get ⟨i, hi⟩).simulation_id = ids i := by
  have hne : requests.isEmpty = false := by
    cases requests with
    | nil => exact absurd rfl h
    | cons a as => rfl
  refine ⟨requests.enum.map fun p => batch_item (ids p.1) (run p.2), ?_, ?_, ?_⟩
  · simp [simulate_batch, hne]
  · simp
  · intro i hi hr
    have hg : (requests.enum.map fun p => batch_item (ids p.1) (run p.2)).get ⟨i, hi⟩
        = batch_item (ids i) (run (requests.get ⟨i, hr⟩)) := by
      simp [List.get_eq_getElem, List.getElem_map, List.getElem_enum]
    refine ⟨hg, ?_⟩
    rw [hg]
    cases run (requests.get ⟨i, hr⟩) <;> rfl

/-- C5 witness: a two-request batch whose runs both fail unexpectedly. -/
theorem simulate_batch_mirrors_input_order_witness :
    ∃ results,
      simulate_batch [⟨1⟩, ⟨3⟩] (fun i => toString i)
          (fun _ => .error (ServiceError.simulationFailed "boom")) = .ok results ∧
      results.length = ([⟨1⟩, ⟨3⟩] : List SimulationRequestModel).length ∧
      ∀ (i : Nat) (hi : i < results.length)
          (hr : i < ([⟨1⟩, ⟨3⟩] : List SimulationRequestModel).length),
        results.get ⟨i, hi⟩ =
          batch_item (toString i)
            ((fun _ => .error (ServiceError.simulationFailed "boom"))
              (([⟨1⟩, ⟨3⟩] : List SimulationRequestModel).get ⟨i, hr⟩)) ∧
        (results.get ⟨i, hi⟩).simulation_id = toString i :=
  simulate_batch_mirrors_input_order [⟨1⟩, ⟨3⟩] (fun i => toString i)
    (fun _ => .error (ServiceError.simulationFailed "boom")) (List.cons_ne_nil _ _)

/-- C6: block context resolution is the pure decision table of its two
optional inputs: both present fails with `InvalidBlockContext`, neither
present yields `Tag(Latest)`, exactly one present yields that one. -/
theorem determine_block_context_table (bn : Option Nat) (bt : Option BlockTag) :
    determine_block_context bn bt =
      match bn, bt with
      | some _, some _ =>
        .error (ServiceError.invalidBlockContext "Cannot specify both block_number and block_tag")
      | none, none => .ok (BlockContext.tag BlockTag.latest)
      | some n, none => .ok (BlockContext.number n)
      | none, some t => .ok (BlockContext.tag t) := by
  cases bn <;> cases bt <;> rfl

/-- C7: on an untyped JSON object, `try_extract_single_trace` implements the
specification's disambiguation: the four frame decoders are tried in the
fixed priority order four-byte, call, prestate, struct-log, the first hit
routes the object, and only when all fail is the object treated as a
tracer-name-keyed map demultiplexed per entry. -/
theorem try_extract_follows_priority_order (D : FrameDecoders) (value : Json)
    (response : TracerResponse) :
    try_extract_single_trace D value response =
      try_extract_single_trace_spec D value response := by
  cases value with
  | obj fields =>
    simp only [try_extract_single_trace, try_extract_single_trace_spec, spec_attempts]
    cases D.four_byte (Json.obj fields) <;>
      cases D.call (Json.obj fields) <;>
        cases D.prestate (Json.obj fields) <;>
          cases D.default_frame (Json.obj fields) <;>
            simp [List.findSome?_cons, List.findSome?]
  | null => rfl
  | bool b => rfl
  | num n => rfl
  | str s => rfl
  | arr elems => rfl

/-- C8: the normalized struct-log response counts one opcode per log entry,
and its refund-event counter equals the number of transitions of the refund
counter from absent to present (one per maximal run of present entries), not
the number of entries where it is present. -/
theorem struct_log_aggregates (frame : DefaultFrame) :
    (StructLogResponse.from_default_frame frame).total_opcodes
        = frame.struct_logs.length ∧
      (StructLogResponse.from_default_frame frame).refund_counter
        = some (refundEventCount (frame.struct_logs.map fun log => log.refund_counter)) := by
  constructor
  · simp [StructLogResponse.from_default_frame]
  · have h := refundScan_snd_eq frame.struct_logs 0 0 none
    simp only [Option.isNone_none, if_true] at h
    simp [StructLogResponse.from_default_frame, refundEventCount, h]

/-- C9: on a successful simulation the reported total gas is the sum of the
per-call `gasUsed` hex strings parsed in base 16 (while that sum fits in 64
bits), a malformed string contributing 0 rather than an error, and
`0x5208 + 0x0 = 0x5208`. -/
theorem total_gas_is_parsed_sum (simulation_id : String) (k : Nat)
    (b : SimulatedBlock) (rest : List SimulatedBlock)
    (hsum : ((b.calls.enum.map fun p => CallResult.fromSim p.1 p.2).map
        fun r => parseGasU64 r.gas_used).sum < 2 ^ 64) :
    ∃ r, simulate_transaction_core simulation_id k (.ok (b :: rest)) = .ok r ∧
      r.gas_used = "0x" ++ hexString ((r.calls.map fun c => parseGasU64 c.gas_used).sum) ∧
      parseGasU64 "0x5208" + parseGasU64 "0x0" = 21000 ∧
      parseGasU64 "0xnothex" = 0 := by
  refine ⟨_, rfl, ?_, by decide, by decide⟩
  have hfold := foldl_wrap_eq_sum (fun r => parseGasU64 r.gas_used) (2 ^ 64)
    (b.calls.enum.map fun p => CallResult.fromSim p.1 p.2) 0 (by simpa using hsum)
  show "0x" ++ hexString
      ((b.calls.enum.map fun p => CallResult.fromSim p.1 p.2).foldl
        (fun acc r => (acc + parseGasU64 r.gas_used) % 2 ^ 64) 0)
    = "0x" ++ hexString
      (((b.calls.enum.map fun p => CallResult.fromSim p.1 p.2).map
        fun c => parseGasU64 c.gas_used).sum)
  rw [hfold]
  simp

/-- C9 witness: two calls with gas `0x5208` and `0x0`. -/
theorem total_gas_is_parsed_sum_witness :
    ∃ r, simulate_transaction_core "sim-2" 2
        (.ok [{ header := { number := 1, gas_used := 50000 }
                calls := [{ status := true, return_data := [], gas_used := 21000,
                            logs := [], error := none },
                          { status := true, return_data := [], gas_used := 0,
                            logs := [], error := none }] }]) = .ok r ∧
      r.gas_used = "0x" ++ hexString ((r.calls.map fun c => parseGasU64 c.gas_used).sum) ∧
      parseGasU64 "0x5208" + parseGasU64 "0x0" = 21000 ∧
      parseGasU64 "0xnothex" = 0 :=
  total_gas_is_parsed_sum "sim-2" 2
    { header := { number := 1, gas_used := 50000 }
      calls := [{ status := true, return_data := [], gas_used := 21000,
                  logs := [], error := none },
                { status := true, return_data := [], gas_used := 0,
                  logs := [], error := none }] }
    [] (by decide)

/-- C10: when a batch item fails with an unexpected error, its synthesized
placeholder always contains exactly one call outcome — index 0, reverted,
error type `simulation-error` — regardless of the item's requested call
count (the request is not consulted at all), unlike the RPC-failure path of
`simulate_transaction`. -/
theorem batch_error_placeholder_has_single_call (simulation_id : String)
    (req : SimulationRequestModel)
    (run : SimulationRequestModel → Except ServiceError SimulationResult)
    (e : ServiceError) (h : run req = .error e) :
    (batch_item simulation_id (run req)).calls =
        [{ call_index := 0, status := CallStatus.reverted, return_data := "0x",
           gas_used := "0x0", logs := [],
           error := some { reason := "Simulation service error occurred",
                           error_type := "simulation-error",
                           message := some "Simulation service error occurred",
                           contract_address := none } }] ∧
      (batch_item simulation_id (run req)).calls.length = 1 := by
  rw [h]
  exact ⟨rfl, rfl⟩

/-- C10 witness: a five-call request whose run fails with a conversion
error still yields a single-call placeholder. -/
theorem batch_error_placeholder_has_single_call_witness :
    (batch_item "sim-3"
        ((fun _ => .error (ServiceError.simulationFailed "conversion failed"))
          (⟨5⟩ : SimulationRequestModel))).calls =
        [{ call_index := 0, status := CallStatus.reverted, return_data := "0x",
           gas_used := "0x0", logs := [],
           error := some { reason := "Simulation service error occurred",
                           error_type := "simulation-error",
                           message := some "Simulation service error occurred",
                           contract_address := none } }] ∧
      (batch_item "sim-3"
        ((fun _ => .error (ServiceError.simulationFailed "conversion failed"))
          (⟨5⟩ : SimulationRequestModel))).calls.length = 1 :=
  batch_error_placeholder_has_single_call "sim-3" ⟨5⟩
    (fun _ => .error (ServiceError.simulationFailed "conversion failed"))
    (ServiceError.simulationFailed "conversion failed") rfl

end Altitrace
